import Mathlib

set_option autoImplicit false

namespace Hello3D

/-!
Shallow embedding of the session-routing and state-reconciliation core of
the hello3dmcp server (src/server.js).

The server holds three process-wide maps keyed by strings:
wsClients (sessionId to WebSocket), pendingStateQueries (requestId to a
completion handle), and sessionStateCache (sessionId to a cached state
snapshot). JavaScript Map semantics (set replaces in place, delete removes
the key, lookup is by key) are modelled by association lists with the
helper functions below. Wire output is modelled as a trace of
(connection id, payload) pairs. The asynchronous getState round trip is
modelled by explicit phases: startQuery mirrors queryStateFromBrowser up
to the point where the caller suspends, and a BrowserBehavior value says
which event settles the wait (a stateResponse, a stateError, or silence
until the 2000 ms timer fires).
-/

/-- Full state snapshot sent by the browser; the server never inspects its
structure, so it is modelled as a string. -/
abbrev StateVal := String

/-- Connection handle: an identifier for the underlying socket plus its
readyState field (1 is OPEN). -/
structure Conn where
  id : Nat
  readyState : Nat
deriving DecidableEq

/-- Payloads the server writes to a WebSocket: the requestState query sent
by queryStateFromBrowser, the sessionRegistered ack, and the tool command
cargo which the router never inspects. -/
inductive Command where
  | requestState (requestId : String) (forceRefresh : Bool)
  | sessionRegistered (sessionId : String)
  | generic (tag : String)
deriving DecidableEq

/-- Message written to the wire: target connection id and payload. -/
abbrev SentMsg := Nat × Command

/-- Entry of pendingStateQueries. In the source it holds resolve, reject
and a timer handle; the closures belong to the getState call of a single
session, recorded here as forSession, but note the table itself is keyed
only by requestId. -/
structure PendingQuery where
  forSession : String
deriving DecidableEq

/-- Entry of sessionStateCache: the snapshot and its timestamp. -/
structure CacheEntry where
  state : StateVal
  timestamp : Nat
deriving DecidableEq

/-- Process-wide mutable state of the server. -/
structure ServerState where
  wsClients : List (String × Conn)
  pendingStateQueries : List (String × PendingQuery)
  sessionStateCache : List (String × CacheEntry)
deriving DecidableEq

/-- Lookup by key, mirroring Map.get: first (and in a well-formed map the
only) binding for the key. -/
def lookupEntry {α : Type} : List (String × α) → String → Option α
  | [], _ => none
  | (k, v) :: rest, key => if k = key then some v else lookupEntry rest key

/-- Insert or replace, mirroring Map.set: replaces the binding in place if
the key is present, otherwise appends. -/
def setEntry {α : Type} : List (String × α) → String → α → List (String × α)
  | [], key, v => [(key, v)]
  | (k, w) :: rest, key, v =>
      if k = key then (key, v) :: rest else (k, w) :: setEntry rest key v

/-- Removal, mirroring Map.delete. -/
def eraseEntry {α : Type} : List (String × α) → String → List (String × α)
  | [], _ => []
  | (k, v) :: rest, key => if k = key then rest else (k, v) :: eraseEntry rest key

/-- Number of bindings carrying a given key; a well-formed Map has at most
one per key. -/
def countKey {α : Type} : List (String × α) → String → Nat
  | [], _ => 0
  | (k, _) :: rest, key => (if k = key then 1 else 0) + countKey rest key

/-- Embedding of sendToSession (server.js lines 230 to 240): look up the
connection bound to the session; if present and OPEN, serialize and write
the command and return true; otherwise log and return false, writing
nothing. -/
def sendToSession (s : ServerState) (sessionId : String) (command : Command) :
    Bool × List SentMsg :=
  match lookupEntry s.wsClients sessionId with
  | some ws => if ws.readyState = 1 then (true, [(ws.id, command)]) else (false, [])
  | none => (false, [])

/-- Embedding of broadcastToClients (lines 371 to 378): write the command
to every registered connection whose readyState is OPEN, in map order. -/
def broadcastToClients (s : ServerState) (command : Command) : List SentMsg :=
  s.wsClients.filterMap (fun e =>
    if e.2.readyState = 1 then some (e.2.id, command) else none)

/-- True when the session has a bound connection whose readyState is OPEN,
which is exactly the condition under which sendToSession delivers. -/
def hasLiveConn (s : ServerState) (sessionId : String) : Bool :=
  match lookupEntry s.wsClients sessionId with
  | some ws => ws.readyState == 1
  | none => false

/-- Embedding of the registerSession branch of the message handler (lines
146 to 155): bind the connection to the session id and send the
sessionRegistered confirmation. -/
def handleRegister (s : ServerState) (sessionId : String) (ws : Conn) :
    ServerState × List SentMsg :=
  ({ s with wsClients := setEntry s.wsClients sessionId ws },
   [(ws.id, Command.sessionRegistered sessionId)])

/-- Outcome of delivering a stateResponse or stateError message to the
correlation table: the completion handle of a pending entry is invoked at
most once, or the message is ignored when the requestId is unknown. -/
inductive SettleResult where
  | resolved (q : PendingQuery) (v : StateVal)
  | rejected (q : PendingQuery) (e : String)
  | ignored
deriving DecidableEq

/-- Embedding of the stateResponse branch (lines 158 to 168): if the
requestId is pending, clear its timer, remove the entry and resolve with
the received state; otherwise log a warning and do nothing. -/
def handleStateResponse (s : ServerState) (requestId : String) (v : StateVal) :
    ServerState × SettleResult :=
  match lookupEntry s.pendingStateQueries requestId with
  | some q =>
      ({ s with pendingStateQueries := eraseEntry s.pendingStateQueries requestId },
       SettleResult.resolved q v)
  | none => (s, SettleResult.ignored)

/-- Embedding of the stateError branch (lines 181 to 189): if the
requestId is pending, clear its timer, remove the entry and reject with
the received error (defaulting when the error field is falsy); otherwise
do nothing. -/
def handleStateError (s : ServerState) (requestId : String) (e : String) :
    ServerState × SettleResult :=
  match lookupEntry s.pendingStateQueries requestId with
  | some q =>
      ({ s with pendingStateQueries := eraseEntry s.pendingStateQueries requestId },
       SettleResult.rejected q (if e = "" then "State query failed" else e))
  | none => (s, SettleResult.ignored)

/-- Embedding of the stateUpdate branch (lines 171 to 178): overwrite the
cache entry of the sending session with the pushed snapshot, timestamp
defaulting to the current clock when absent. -/
def handleStateUpdate (s : ServerState) (sessionId : String) (v : StateVal)
    (timestamp : Option Nat) (now : Nat) : ServerState :=
  { s with sessionStateCache :=
      setEntry s.sessionStateCache sessionId ⟨v, timestamp.getD now⟩ }

/-- Result of the close handler: the state after cleanup together with the
list of pending queries it rejected, each with its error message. -/
structure CloseResult where
  state : ServerState
  rejected : List (String × PendingQuery × String)
deriving DecidableEq

/-- Embedding of the close handler (lines 207 to 222): when the closing
connection had registered a session id, unbind it, evict the session cache
entry, and reject every entry of the process-wide pending table with a
Browser disconnected error, clearing the table; an unregistered close does
nothing. -/
def handleClose (s : ServerState) (sessionId : Option String) : CloseResult :=
  match sessionId with
  | some sid =>
      { state :=
          { wsClients := eraseEntry s.wsClients sid,
            pendingStateQueries := [],
            sessionStateCache := eraseEntry s.sessionStateCache sid },
        rejected :=
          s.pendingStateQueries.map (fun e => (e.1, e.2, "Browser disconnected")) }
  | none => { state := s, rejected := [] }

/-- Embedding of the timer callback installed by waitForStateResponse
(lines 249 to 262): on expiry the pending entry is removed and the waiting
caller is rejected with a State query timeout error. -/
def timeoutFire (s : ServerState) (requestId : String) : ServerState :=
  { s with pendingStateQueries := eraseEntry s.pendingStateQueries requestId }

/-- First phase of queryStateFromBrowser (lines 265 to 281): either the
synchronous failure thrown when sendToSession reports no live connection,
before any timer or correlation entry exists, or the suspended state after
the requestState message went out and waitForStateResponse registered the
pending entry. -/
inductive StartResult where
  | failed (err : String)
  | awaiting (s1 : ServerState) (msgs : List SentMsg)
deriving DecidableEq

/-- Embedding of the synchronous prefix of queryStateFromBrowser: send a
requestState message carrying a fresh requestId; when the send fails throw
Browser not connected immediately (no timer, no pending entry); when it
succeeds register the pending entry and suspend. -/
def startQuery (s : ServerState) (sessionId requestId : String) : StartResult :=
  match sendToSession s sessionId (Command.requestState requestId false) with
  | (true, msgs) =>
      StartResult.awaiting
        { s with pendingStateQueries :=
            setEntry s.pendingStateQueries requestId ⟨sessionId⟩ }
        msgs
  | (false, _) => StartResult.failed "Browser not connected"

/-- Event that settles a suspended live query: the browser replies with a
stateResponse, replies with a stateError, or stays silent so the 2000 ms
timer fires. -/
inductive BrowserBehavior where
  | reply (v : StateVal)
  | replyError (e : String)
  | silent
deriving DecidableEq

/-- Outcome of the awaited live query as seen by getState. -/
inductive QueryOutcome where
  | success (v : StateVal)
  | failure (msg : String)
deriving DecidableEq

/-- Delivery of the settling event to the correlation table. A reply whose
requestId is no longer pending leaves the caller waiting, so the timer
eventually fires; that residual case is folded into the timeout branch. -/
def settleLiveQuery (s1 : ServerState) (requestId : String) (beh : BrowserBehavior) :
    ServerState × QueryOutcome :=
  match beh with
  | BrowserBehavior.reply v =>
      match handleStateResponse s1 requestId v with
      | (s2, SettleResult.resolved _ w) => (s2, QueryOutcome.success w)
      | (s2, _) => (timeoutFire s2 requestId, QueryOutcome.failure "State query timeout")
  | BrowserBehavior.replyError e =>
      match handleStateError s1 requestId e with
      | (s2, SettleResult.rejected _ msg) => (s2, QueryOutcome.failure msg)
      | (s2, _) => (timeoutFire s2 requestId, QueryOutcome.failure "State query timeout")
  | BrowserBehavior.silent =>
      (timeoutFire s1 requestId, QueryOutcome.failure "State query timeout")

/-- Value and provenance metadata returned by getState; the source string
is fresh or cache, and wasCached drives the staleness caveat. -/
structure GetStateResult where
  state : StateVal
  source : String
  wasCached : Bool
deriving DecidableEq

/-- Catch block of getState (lines 293 to 305): when the live query failed,
fall back to the cache if an entry exists, else rethrow a descriptive
error. -/
def getStateFallback (s : ServerState) (sessionId errMsg : String) :
    Except String GetStateResult :=
  match lookupEntry s.sessionStateCache sessionId with
  | some c => Except.ok ⟨c.state, "cache", true⟩
  | none =>
      Except.error
        ("Unable to retrieve state: " ++ errMsg ++ ". Browser may be disconnected.")

/-- Embedding of getState (lines 284 to 316): always attempt the live
query via queryStateFromBrowser; on success return the fresh snapshot with
source fresh; on any failure fall back to the cache or raise. Returns the
result, the server state after the run, and the wire trace. -/
def runGetState (s : ServerState) (sessionId requestId : String)
    (beh : BrowserBehavior) :
    Except String GetStateResult × ServerState × List SentMsg :=
  match startQuery s sessionId requestId with
  | StartResult.failed err => (getStateFallback s sessionId err, s, [])
  | StartResult.awaiting s1 msgs =>
      match settleLiveQuery s1 requestId beh with
      | (s2, QueryOutcome.success v) => (Except.ok ⟨v, "fresh", false⟩, s2, msgs)
      | (s2, QueryOutcome.failure m) => (getStateFallback s2 sessionId m, s2, msgs)

/-- Ambient routing inputs of routeToCurrentSession: the per-request
session from AsyncLocalStorage, the process mode flag, and the STDIO
session id generated at startup. -/
structure RouteCtx where
  contextSession : Option String
  isStdioMode : Bool
  stdioSessionId : Option String
deriving DecidableEq

/-- Observable effect of routeToCurrentSession: a targeted send (whose
trace may be empty when the session has no live connection), the degraded
broadcast, or one of the two logged drop branches. -/
inductive RouteAction where
  | routed (sessionId : String) (msgs : List SentMsg)
  | broadcastAll (msgs : List SentMsg)
  | droppedNoClients
  | droppedNoContext
deriving DecidableEq

/-- Embedding of routeToCurrentSession (lines 346 to 368): prefer the
per-request session; otherwise, in STDIO mode, prefer the STDIO session
id, then broadcast to all clients when at least one is registered, else
drop; in HTTP mode with no per-request session, drop. -/
def routeToCurrentSession (s : ServerState) (ctx : RouteCtx) (command : Command) :
    RouteAction :=
  match ctx.contextSession with
  | some sid => RouteAction.routed sid (sendToSession s sid command).2
  | none =>
      if ctx.isStdioMode then
        match ctx.stdioSessionId with
        | some sid => RouteAction.routed sid (sendToSession s sid command).2
        | none =>
            if s.wsClients.length > 0 then
              RouteAction.broadcastAll (broadcastToClients s command)
            else RouteAction.droppedNoClients
      else RouteAction.droppedNoContext

/-- Sample server state: session s1 bound to an OPEN connection (socket 7)
and holding a cached snapshot. -/
def exLiveCached : ServerState :=
  { wsClients := [("s1", ⟨7, 1⟩)],
    pendingStateQueries := [],
    sessionStateCache := [("s1", ⟨"snapA", 100⟩)] }

/-- Sample server state: session s1 holds a cached snapshot but its bound
connection has closed (readyState 3). -/
def exDeadCached : ServerState :=
  { wsClients := [("s1", ⟨7, 3⟩)],
    pendingStateQueries := [],
    sessionStateCache := [("s1", ⟨"snapA", 100⟩)] }

/-- Sample server state with no connections, no pending queries and no
cache at all. -/
def exEmpty : ServerState :=
  { wsClients := [], pendingStateQueries := [], sessionStateCache := [] }

/-- Sample server state with two live sessions and three outstanding
pending queries, two issued for s1 and one for s2. -/
def exPending : ServerState :=
  { wsClients := [("s1", ⟨7, 1⟩), ("s2", ⟨8, 1⟩)],
    pendingStateQueries := [("rA", ⟨"s1"⟩), ("rB", ⟨"s1"⟩), ("rC", ⟨"s2"⟩)],
    sessionStateCache := [] }

/-!
Supporting lemmas about the Map embedding and the query pipeline, shared
by the claim theorems below.
-/

theorem lookupEntry_setEntry_self {α : Type} (m : List (String × α)) (k : String)
    (v : α) : lookupEntry (setEntry m k v) k = some v := by
  induction m with
  | nil => simp [setEntry, lookupEntry]
  | cons e rest ih =>
      obtain ⟨k', w⟩ := e
      by_cases h : k' = k
      · simp [setEntry, h, lookupEntry]
      · simp [setEntry, h, lookupEntry, ih]

theorem countKey_setEntry_self {α : Type} (m : List (String × α)) (k : String)
    (v : α) : countKey (setEntry m k v) k = max (countKey m k) 1 := by
  induction m with
  | nil => simp [setEntry, countKey]
  | cons e rest ih =>
      obtain ⟨k', w⟩ := e
      by_cases h : k' = k
      · simp [setEntry, h, countKey, Nat.max_eq_left, Nat.le_add_right]
      · simp [setEntry, h, countKey, ih]

theorem countKey_setEntry_ne {α : Type} (m : List (String × α)) (k key : String)
    (v : α) (h : key ≠ k) : countKey (setEntry m k v) key = countKey m key := by
  induction m with
  | nil =>
      simp [setEntry, countKey]
      exact fun hh => h hh.symm
  | cons e rest ih =>
      obtain ⟨k', w⟩ := e
      by_cases hk : k' = k
      · subst hk
        simp [setEntry, countKey]
      · simp [setEntry, hk, countKey, ih]

theorem startQuery_of_dead (s : ServerState) (sid rid : String)
    (h : hasLiveConn s sid = false) :
    startQuery s sid rid = StartResult.failed "Browser not connected" := by
  unfold startQuery sendToSession
  unfold hasLiveConn at h
  cases hl : lookupEntry s.wsClients sid with
  | none => simp [hl]
  | some ws =>
      rw [hl] at h
      rw [beq_eq_false_iff_ne] at h
      simp [hl, h]

theorem startQuery_of_live (s : ServerState) (sid rid : String) (ws : Conn)
    (hl : lookupEntry s.wsClients sid = some ws) (hr : ws.readyState = 1) :
    startQuery s sid rid
      = StartResult.awaiting
          { s with pendingStateQueries :=
              setEntry s.pendingStateQueries rid ⟨sid⟩ }
          [(ws.id, Command.requestState rid false)] := by
  unfold startQuery sendToSession
  simp [hl, hr]

theorem hasLiveConn_elim (s : ServerState) (sid : String)
    (h : hasLiveConn s sid = true) :
    ∃ ws, lookupEntry s.wsClients sid = some ws ∧ ws.readyState = 1 := by
  unfold hasLiveConn at h
  cases hl : lookupEntry s.wsClients sid with
  | none => rw [hl] at h; cases h
  | some ws =>
      rw [hl] at h
      simp only [beq_iff_eq] at h
      exact ⟨ws, rfl, h⟩

theorem getStateFallback_of_cache (s : ServerState) (sid m : String)
    (c : CacheEntry) (hc : lookupEntry s.sessionStateCache sid = some c) :
    getStateFallback s sid m = Except.ok ⟨c.state, "cache", true⟩ := by
  unfold getStateFallback
  rw [hc]

theorem getStateFallback_of_no_cache (s : ServerState) (sid m : String)
    (hc : lookupEntry s.sessionStateCache sid = none) :
    getStateFallback s sid m
      = Except.error
          ("Unable to retrieve state: " ++ m ++ ". Browser may be disconnected.") := by
  unfold getStateFallback
  rw [hc]

theorem runGetState_of_dead (s : ServerState) (sid rid : String)
    (beh : BrowserBehavior) (hconn : hasLiveConn s sid = false) :
    runGetState s sid rid beh
      = (getStateFallback s sid "Browser not connected", s, []) := by
  unfold runGetState
  rw [startQuery_of_dead s sid rid hconn]

/-- C1, counterexample: session s1 has a cached snapshot and an OPEN
connection; getState with the default (non force-refresh) request still
sends a requestState message on the wire and, when the browser replies,
returns the fresh snapshot with source fresh, not the cached snapshot with
source cache. This contradicts the claim that a cached snapshot is
returned immediately with no transport message. -/
theorem c1_counterexample :
    lookupEntry exLiveCached.sessionStateCache "s1" = some ⟨"snapA", 100⟩ ∧
    (runGetState exLiveCached "s1" "r1" (BrowserBehavior.reply "snapB")).1
      = Except.ok ⟨"snapB", "fresh", false⟩ ∧
    (runGetState exLiveCached "s1" "r1" (BrowserBehavior.reply "snapB")).2.2
      = [(7, Command.requestState "r1" false)] := by
  refine ⟨rfl, rfl, rfl⟩

/-- C1 (amended): getState always attempts a live query; only when the
session has no live connection does the cached snapshot win. For every
session with a cached snapshot and no OPEN bound connection, getState
returns the cached snapshot with provenance cache, sends no transport
message, leaves the state unchanged, and a second call with no intervening
push or write returns the identical snapshot with zero additional
transport messages. -/
theorem c1_cache_fallback_idempotent (s : ServerState) (sid rid1 rid2 : String)
    (beh1 beh2 : BrowserBehavior) (c : CacheEntry)
    (hconn : hasLiveConn s sid = false)
    (hcache : lookupEntry s.sessionStateCache sid = some c) :
    runGetState s sid rid1 beh1
      = (Except.ok ⟨c.state, "cache", true⟩, s, []) ∧
    runGetState (runGetState s sid rid1 beh1).2.1 sid rid2 beh2
      = (Except.ok ⟨c.state, "cache", true⟩, s, []) := by
  have hfb := getStateFallback_of_cache s sid "Browser not connected" c hcache
  have h1 : runGetState s sid rid1 beh1
      = (Except.ok ⟨c.state, "cache", true⟩, s, []) := by
    rw [runGetState_of_dead s sid rid1 beh1 hconn, hfb]
  refine ⟨h1, ?_⟩
  rw [h1]
  show runGetState s sid rid2 beh2 = _
  rw [runGetState_of_dead s sid rid2 beh2 hconn, hfb]

/-- C1, witness: concrete run of the amended theorem on a session whose
connection has closed but whose cache holds snapA. -/
theorem c1_witness :
    runGetState exDeadCached "s1" "r1" BrowserBehavior.silent
      = (Except.ok ⟨"snapA", "cache", true⟩, exDeadCached, []) ∧
    runGetState (runGetState exDeadCached "s1" "r1" BrowserBehavior.silent).2.1
        "s1" "r2" BrowserBehavior.silent
      = (Except.ok ⟨"snapA", "cache", true⟩, exDeadCached, []) :=
  c1_cache_fallback_idempotent exDeadCached "s1" "r1" "r2"
    BrowserBehavior.silent BrowserBehavior.silent ⟨"snapA", 100⟩
    (by decide) (by decide)

/-- C2, counterexample: with a cached snapA and a live connection, a
successful round trip returning snapB leaves the cache at snapA; the cache
does not equal the value getState just returned, contradicting the claim
that the stateResponse path overwrites the cache. -/
theorem c2_counterexample :
    (runGetState exLiveCached "s1" "r1" (BrowserBehavior.reply "snapB")).1
      = Except.ok ⟨"snapB", "fresh", false⟩ ∧
    lookupEntry
        (runGetState exLiveCached "s1" "r1"
          (BrowserBehavior.reply "snapB")).2.1.sessionStateCache "s1"
      = some ⟨"snapA", 100⟩ ∧
    ("snapA" : String) ≠ "snapB" := by
  refine ⟨rfl, rfl, by decide⟩

/-- C2 (amended): when the live query issued by getState succeeds, getState
returns the returned snapshot with provenance fresh but the cache is left
unchanged; the cache is only overwritten by the stateUpdate push handler. -/
theorem c2_fresh_leaves_cache (s : ServerState) (sid rid : String) (v : StateVal)
    (hconn : hasLiveConn s sid = true) :
    (runGetState s sid rid (BrowserBehavior.reply v)).1
      = Except.ok ⟨v, "fresh", false⟩ ∧
    (runGetState s sid rid (BrowserBehavior.reply v)).2.1.sessionStateCache
      = s.sessionStateCache ∧
    ∀ (t : Option Nat) (now : Nat),
      lookupEntry (handleStateUpdate s sid v t now).sessionStateCache sid
        = some ⟨v, t.getD now⟩ := by
  obtain ⟨ws, hl, hr⟩ := hasLiveConn_elim s sid hconn
  have hstart := startQuery_of_live s sid rid ws hl hr
  have hpend :
      lookupEntry
        (setEntry s.pendingStateQueries rid (⟨sid⟩ : PendingQuery)) rid
        = some ⟨sid⟩ :=
    lookupEntry_setEntry_self s.pendingStateQueries rid ⟨sid⟩
  refine ⟨?_, ?_, ?_⟩
  · unfold runGetState
    rw [hstart]
    unfold settleLiveQuery handleStateResponse
    simp [hpend]
  · unfold runGetState
    rw [hstart]
    unfold settleLiveQuery handleStateResponse
    simp [hpend]
  · intro t now
    unfold handleStateUpdate
    exact lookupEntry_setEntry_self s.sessionStateCache sid ⟨v, t.getD now⟩

/-- C2, witness: concrete run of the amended theorem with a live
connection, a reply snapB, and a push applied afterwards. -/
theorem c2_witness :
    (runGetState exLiveCached "s1" "r1" (BrowserBehavior.reply "snapB")).1
      = Except.ok ⟨"snapB", "fresh", false⟩ ∧
    (runGetState exLiveCached "s1" "r1"
        (BrowserBehavior.reply "snapB")).2.1.sessionStateCache
      = exLiveCached.sessionStateCache ∧
    lookupEntry
        (handleStateUpdate exLiveCached "s1" "snapB" (some 200) 999).sessionStateCache
        "s1"
      = some ⟨"snapB", 200⟩ := by
  obtain ⟨h1, h2, h3⟩ :=
    c2_fresh_leaves_cache exLiveCached "s1" "r1" "snapB" (by decide)
  exact ⟨h1, h2, h3 (some 200) 999⟩

theorem getStateFallback_congr (s s2 : ServerState) (sid m : String)
    (h : s2.sessionStateCache = s.sessionStateCache) :
    getStateFallback s2 sid m = getStateFallback s sid m := by
  unfold getStateFallback
  rw [h]

theorem runGetState_replyError (s : ServerState) (sid rid e : String) (ws : Conn)
    (hl : lookupEntry s.wsClients sid = some ws) (hr : ws.readyState = 1) :
    (runGetState s sid rid (BrowserBehavior.replyError e)).1
      = getStateFallback s sid (if e = "" then "State query failed" else e) ∧
    (runGetState s sid rid
        (BrowserBehavior.replyError e)).2.1.sessionStateCache
      = s.sessionStateCache := by
  unfold runGetState
  rw [startQuery_of_live s sid rid ws hl hr]
  simp only [settleLiveQuery, handleStateError, lookupEntry_setEntry_self]
  constructor
  · exact getStateFallback_congr s _ sid _ rfl
  · trivial

theorem runGetState_silent (s : ServerState) (sid rid : String) (ws : Conn)
    (hl : lookupEntry s.wsClients sid = some ws) (hr : ws.readyState = 1) :
    (runGetState s sid rid BrowserBehavior.silent).1
      = getStateFallback s sid "State query timeout" ∧
    (runGetState s sid rid BrowserBehavior.silent).2.1.sessionStateCache
      = s.sessionStateCache := by
  unfold runGetState
  rw [startQuery_of_live s sid rid ws hl hr]
  simp only [settleLiveQuery, timeoutFire]
  constructor
  · exact getStateFallback_congr s _ sid _ rfl
  · trivial

theorem runGetState_failed_shape (s : ServerState) (sid rid : String)
    (beh : BrowserBehavior)
    (hfail : hasLiveConn s sid = false ∨ ∀ v, beh ≠ BrowserBehavior.reply v) :
    ∃ m, (runGetState s sid rid beh).1 = getStateFallback s sid m := by
  by_cases hlive : hasLiveConn s sid = true
  · obtain ⟨ws, hl, hr⟩ := hasLiveConn_elim s sid hlive
    have hnr : ∀ v, beh ≠ BrowserBehavior.reply v := by
      rcases hfail with hdead | hnr
      · rw [hlive] at hdead; cases hdead
      · exact hnr
    cases beh with
    | reply v => exact absurd rfl (hnr v)
    | replyError e =>
        exact ⟨_, (runGetState_replyError s sid rid e ws hl hr).1⟩
    | silent =>
        exact ⟨_, (runGetState_silent s sid rid ws hl hr).1⟩
  · have hdead : hasLiveConn s sid = false := by
      cases h : hasLiveConn s sid with
      | false => rfl
      | true => exact absurd h hlive
    refine ⟨"Browser not connected", ?_⟩
    rw [runGetState_of_dead s sid rid beh hdead]

/-- C3 (confirmed): whenever the live query fails (no live connection, an
error reply, or silence until the timeout), getState returns the cached
snapshot with provenance cache when a cache entry exists, and raises the
descriptive Unable to retrieve state error when none does. -/
theorem c3_failure_fallback (s : ServerState) (sid rid : String)
    (beh : BrowserBehavior)
    (hfail : hasLiveConn s sid = false ∨ ∀ v, beh ≠ BrowserBehavior.reply v) :
    (∀ c, lookupEntry s.sessionStateCache sid = some c →
        (runGetState s sid rid beh).1 = Except.ok ⟨c.state, "cache", true⟩) ∧
    (lookupEntry s.sessionStateCache sid = none →
        ∃ m, (runGetState s sid rid beh).1
          = Except.error
              ("Unable to retrieve state: " ++ m
                ++ ". Browser may be disconnected.")) := by
  obtain ⟨m, hm⟩ := runGetState_failed_shape s sid rid beh hfail
  constructor
  · intro c hc
    rw [hm, getStateFallback_of_cache s sid m c hc]
  · intro hc
    exact ⟨m, by rw [hm, getStateFallback_of_no_cache s sid m hc]⟩

/-- C3, witness: with the connection closed and snapA cached, a silent
query run returns the cached snapshot with provenance cache. -/
theorem c3_witness :
    (runGetState exDeadCached "s1" "r3" BrowserBehavior.silent).1
      = Except.ok ⟨"snapA", "cache", true⟩ :=
  (c3_failure_fallback exDeadCached "s1" "r3" BrowserBehavior.silent
      (Or.inl (by decide))).1 ⟨"snapA", 100⟩ (by decide)

/-- C4 (confirmed): a live query for a session with no live bound
connection fails immediately with the Browser not connected error thrown
before the timer is started or a correlation entry is registered; the run
leaves the server state unchanged and sends nothing on the wire. -/
theorem c4_no_route_fail_fast (s : ServerState) (sid rid : String)
    (beh : BrowserBehavior) (hconn : hasLiveConn s sid = false) :
    startQuery s sid rid = StartResult.failed "Browser not connected" ∧
    (runGetState s sid rid beh).2.1 = s ∧
    (runGetState s sid rid beh).2.2 = [] := by
  refine ⟨startQuery_of_dead s sid rid hconn, ?_, ?_⟩
  · rw [runGetState_of_dead s sid rid beh hconn]
  · rw [runGetState_of_dead s sid rid beh hconn]

/-- C4, witness: a query against the empty server state fails fast with
Browser not connected, no state change and no wire traffic. -/
theorem c4_witness :
    startQuery exEmpty "s9" "r9" = StartResult.failed "Browser not connected" ∧
    (runGetState exEmpty "s9" "r9" BrowserBehavior.silent).2.1 = exEmpty ∧
    (runGetState exEmpty "s9" "r9" BrowserBehavior.silent).2.2 = [] :=
  c4_no_route_fail_fast exEmpty "s9" "r9" BrowserBehavior.silent (by decide)

/-- C5 (confirmed): when a connection that registered session sid closes,
every pending query issued for sid is rejected with the Browser
disconnected error by the close handler itself, and the pending table is
left empty, so none of them waits for its individual timeout. -/
theorem c5_close_rejects_session_pending (s : ServerState) (sid rid : String)
    (q : PendingQuery) (hq : (rid, q) ∈ s.pendingStateQueries)
    (_hsess : q.forSession = sid) :
    (rid, q, "Browser disconnected") ∈ (handleClose s (some sid)).rejected ∧
    (handleClose s (some sid)).state.pendingStateQueries = [] := by
  constructor
  · exact List.mem_map_of_mem (fun e => (e.1, e.2, "Browser disconnected")) hq
  · rfl

/-- C5, witness: closing the connection of s1 in a state with two pending
queries for s1 and one for s2 rejects the pending query rA of s1 and
empties the table. -/
theorem c5_witness :
    ("rA", (⟨"s1"⟩ : PendingQuery), "Browser disconnected")
      ∈ (handleClose exPending (some "s1")).rejected ∧
    (handleClose exPending (some "s1")).state.pendingStateQueries = [] :=
  c5_close_rejects_session_pending exPending "s1" "rA" ⟨"s1"⟩ (by decide) rfl

/-- C6 (confirmed): the close handler rejects the entire process-wide
pending table, including entries whose completion handles belong to other,
still-connected sessions, because entries are keyed only by requestId with
no association to a session. -/
theorem c6_close_rejects_all_pending (s : ServerState) (sid rid : String)
    (q : PendingQuery) (hq : (rid, q) ∈ s.pendingStateQueries)
    (_hother : q.forSession ≠ sid) :
    (rid, q, "Browser disconnected") ∈ (handleClose s (some sid)).rejected ∧
    (handleClose s (some sid)).rejected
      = s.pendingStateQueries.map (fun e => (e.1, e.2, "Browser disconnected")) ∧
    (handleClose s (some sid)).state.pendingStateQueries = [] := by
  refine ⟨?_, rfl, rfl⟩
  exact List.mem_map_of_mem (fun e => (e.1, e.2, "Browser disconnected")) hq

/-- C6, witness: closing the connection of s1 also rejects the pending
query rC that was issued on behalf of the still-connected session s2. -/
theorem c6_witness :
    ("rC", (⟨"s2"⟩ : PendingQuery), "Browser disconnected")
      ∈ (handleClose exPending (some "s1")).rejected ∧
    (handleClose exPending (some "s1")).rejected
      = exPending.pendingStateQueries.map
          (fun e => (e.1, e.2, "Browser disconnected")) ∧
    (handleClose exPending (some "s1")).state.pendingStateQueries = [] :=
  c6_close_rejects_all_pending exPending "s1" "rC" ⟨"s2"⟩ (by decide) (by decide)

/-- C7 (confirmed): a stateResponse or stateError naming a requestId that
is no longer in the correlation table is a no-op: the handler returns the
state unchanged, invokes no completion handle, and cannot crash since it
is a total function. -/
theorem c7_stale_reply_noop (s : ServerState) (rid : String) (v : StateVal)
    (e : String) (h : lookupEntry s.pendingStateQueries rid = none) :
    handleStateResponse s rid v = (s, SettleResult.ignored) ∧
    handleStateError s rid e = (s, SettleResult.ignored) := by
  constructor
  · unfold handleStateResponse
    rw [h]
  · unfold handleStateError
    rw [h]

/-- C7, witness: a reply for the unknown requestId rZ leaves the state
with three other pending queries untouched. -/
theorem c7_witness :
    handleStateResponse exPending "rZ" "snapX" = (exPending, SettleResult.ignored) ∧
    handleStateError exPending "rZ" "boom" = (exPending, SettleResult.ignored) :=
  c7_stale_reply_noop exPending "rZ" "snapX" "boom" (by decide)

/-- C8 (confirmed): sendToSession delivers and returns true exactly when a
connection is registered for the session id and its readyState is OPEN, in
which case it writes the serialized command to that one connection; in
every other case it returns false and writes to no connection at all. -/
theorem c8_send_characterization (s : ServerState) (sid : String)
    (cmd : Command) :
    ((sendToSession s sid cmd).1 = true ↔
      ∃ ws, lookupEntry s.wsClients sid = some ws ∧ ws.readyState = 1) ∧
    (∀ ws, lookupEntry s.wsClients sid = some ws → ws.readyState = 1 →
      (sendToSession s sid cmd).2 = [(ws.id, cmd)]) ∧
    ((sendToSession s sid cmd).1 = false → (sendToSession s sid cmd).2 = []) := by
  unfold sendToSession
  cases hl : lookupEntry s.wsClients sid with
  | none =>
      refine ⟨?_, ?_, ?_⟩
      · simp
      · intro ws hws
        cases hws
      · intro _
        rfl
  | some ws =>
      by_cases hr : ws.readyState = 1
      · refine ⟨?_, ?_, ?_⟩
        · simp [hr]
        · intro ws2 hws2 _
          cases hws2
          simp [hr]
        · simp [hr]
      · refine ⟨?_, ?_, ?_⟩
        · simp [hr]
        · intro ws2 hws2 hr2
          cases hws2
          exact absurd hr2 hr
        · intro _
          simp [hr]

/-- C8, witness: in the sample live state, sending a command to s1 writes
exactly one message to socket 7. -/
theorem c8_witness :
    (sendToSession exLiveCached "s1" (Command.generic "changeColor")).2
      = [(7, Command.generic "changeColor")] :=
  (c8_send_characterization exLiveCached "s1"
      (Command.generic "changeColor")).2.1 ⟨7, 1⟩ (by decide) rfl

/-- C9 (confirmed): registration is a Map set keyed by sessionId, so at
most one connection is bound per session id, and registering c2 over an
existing binding c1 makes every subsequent lookup return c2, with c1 no
longer reachable by that id. -/
theorem c9_last_registration_wins (s : ServerState) (sid : String)
    (c1 c2 : Conn) (hinv : ∀ k, countKey s.wsClients k ≤ 1) :
    lookupEntry
        ((handleRegister (handleRegister s sid c1).1 sid c2).1).wsClients sid
      = some c2 ∧
    (c1 ≠ c2 →
      lookupEntry
          ((handleRegister (handleRegister s sid c1).1 sid c2).1).wsClients sid
        ≠ some c1) ∧
    (∀ k,
      countKey
          ((handleRegister (handleRegister s sid c1).1 sid c2).1).wsClients k
        ≤ 1) ∧
    countKey
        ((handleRegister (handleRegister s sid c1).1 sid c2).1).wsClients sid
      = 1 := by
  have hcli :
      ((handleRegister (handleRegister s sid c1).1 sid c2).1).wsClients
        = setEntry (setEntry s.wsClients sid c1) sid c2 := rfl
  have hlook :
      lookupEntry
          ((handleRegister (handleRegister s sid c1).1 sid c2).1).wsClients sid
        = some c2 := by
    rw [hcli]
    exact lookupEntry_setEntry_self _ sid c2
  have hcount :
      countKey
          ((handleRegister (handleRegister s sid c1).1 sid c2).1).wsClients sid
        = 1 := by
    rw [hcli, countKey_setEntry_self, countKey_setEntry_self]
    have := hinv sid
    omega
  refine ⟨hlook, ?_, ?_, hcount⟩
  · intro hne hcontra
    rw [hlook] at hcontra
    exact hne (Option.some.inj hcontra).symm
  · intro k
    by_cases hk : k = sid
    · rw [hk, hcount]
    · rw [hcli, countKey_setEntry_ne _ _ _ _ hk, countKey_setEntry_ne _ _ _ _ hk]
      exact hinv k

/-- C9, witness: registering socket 1 and then socket 2 for s1 on the
empty state leaves s1 bound to socket 2 with exactly one binding. -/
theorem c9_witness :
    lookupEntry
        ((handleRegister (handleRegister exEmpty "s1" ⟨1, 1⟩).1 "s1" ⟨2, 1⟩).1).wsClients
        "s1"
      = some ⟨2, 1⟩ ∧
    countKey
        ((handleRegister (handleRegister exEmpty "s1" ⟨1, 1⟩).1 "s1" ⟨2, 1⟩).1).wsClients
        "s1"
      = 1 := by
  obtain ⟨h1, h2, h3, h4⟩ :=
    c9_last_registration_wins exEmpty "s1" ⟨1, 1⟩ ⟨2, 1⟩
      (by intro k; simp [exEmpty, countKey])
  exact ⟨h1, h4⟩

/-- C10, counterexample: in HTTP mode with no per-request session context
and one registered open connection, the command is dropped with a logged
warning rather than broadcast, contradicting the claim that a broadcast
happens whenever at least one client connection is registered. -/
theorem c10_counterexample :
    exLiveCached.wsClients ≠ [] ∧
    routeToCurrentSession exLiveCached ⟨none, false, none⟩
        (Command.generic "changeColor")
      = RouteAction.droppedNoContext := by
  exact ⟨by decide, rfl⟩

/-- C10 (amended): the degraded broadcast fallback applies only in STDIO
mode. When no per-request session is resolvable and the process runs in
STDIO mode with no STDIO session id, the command is broadcast to all open
registered connections if at least one connection is registered and
dropped with a logged warning if none is; in HTTP mode with no per-request
session the command is always dropped with a logged warning, never
broadcast. -/
theorem c10_route_no_session (s : ServerState) (cmd : Command) :
    (s.wsClients ≠ [] →
      routeToCurrentSession s ⟨none, true, none⟩ cmd
        = RouteAction.broadcastAll (broadcastToClients s cmd)) ∧
    (s.wsClients = [] →
      routeToCurrentSession s ⟨none, true, none⟩ cmd
        = RouteAction.droppedNoClients) ∧
    (∀ stdioId : Option String,
      routeToCurrentSession s ⟨none, false, stdioId⟩ cmd
        = RouteAction.droppedNoContext) := by
  refine ⟨?_, ?_, ?_⟩
  · intro h
    unfold routeToCurrentSession
    cases hc : s.wsClients with
    | nil => exact absurd hc h
    | cons a t => simp [hc]
  · intro h
    unfold routeToCurrentSession
    simp [h]
  · intro stdioId
    rfl

/-- C10, witness: in STDIO mode with no session ids and one open client,
the command is broadcast to that client. -/
theorem c10_witness :
    routeToCurrentSession exLiveCached ⟨none, true, none⟩
        (Command.generic "changeSize")
      = RouteAction.broadcastAll
          (broadcastToClients exLiveCached (Command.generic "changeSize")) :=
  (c10_route_no_session exLiveCached (Command.generic "changeSize")).1 (by decide)

end Hello3D
